import Mathlib

/-!
Verification of the supervisor core of the Secure AI Agent (src/main.py).

The Python source is shallowly embedded: each method of `SecureAICore` (and
the launcher in `__main__`) becomes a pure Lean function whose external
effects (process enumeration, the classification backend, the relay launch,
the OS socket bind) are passed in as explicit inputs, and whose logging is
returned as an explicit list of entries.  Exceptions raised by collaborators
are modelled as `Except`-style values; an exception the Python code catches
corresponds to a constructor the Lean function consumes.
-/

namespace SecureAI

/-- Severity levels of the logging sink used by the agent. -/
inductive LogLevel where
  | info
  | warning
  | error
  deriving Repr, DecidableEq

/-- One message appended to the agent's log. -/
structure LogEntry where
  level : LogLevel
  msg : String
  deriving Repr, DecidableEq

/-- Transient per-process record read from the host OS, as requested by
`psutil.process_iter(["pid", "name", "cpu_percent", "connections"])` in
`security_scan` (src/main.py line 109).  CPU percentage is modelled as a
rational number. -/
structure ProcessSnapshot where
  pid : Nat
  name : String
  cpu_percent : ℚ
  deriving Repr, DecidableEq

/-- Outcome of inspecting one enumerated process: either its attributes are
read successfully, or reading them raises `psutil.NoSuchProcess` or
`psutil.AccessDenied` (src/main.py lines 110-115). -/
inductive ProcAccess where
  | ok (info : ProcessSnapshot)
  | noSuchProcess
  | accessDenied
  deriving Repr, DecidableEq

/-- The finding string built for a flagged process
(src/main.py line 113). -/
def threatMsg (p : ProcessSnapshot) : String :=
  "High CPU: " ++ p.name ++ " (PID: " ++ toString p.pid ++ ")"

/-- The sentinel element returned when the `threats` list is empty
(src/main.py line 119). -/
def noThreatsMsg : String := "No immediate threats detected"

/-- The `threats` list accumulated by the scan loop body of `security_scan`
(src/main.py lines 109-115): an entry whose inspection raises
`NoSuchProcess` or `AccessDenied` is skipped by `continue`; an entry read
successfully is appended exactly when its `cpu_percent` exceeds 90. -/
def scanFindings (entries : List ProcAccess) : List String :=
  entries.filterMap fun r =>
    match r with
    | ProcAccess.ok info =>
        if info.cpu_percent > 90 then some (threatMsg info) else none
    | ProcAccess.noSuchProcess => none
    | ProcAccess.accessDenied => none

/-- `SecureAICore.security_scan` (src/main.py lines 105-119).

Input: `entries` is the sequence of per-entry inspection outcomes the
enumeration yields before it either finishes or raises; `crash = some e`
means the enumeration itself raises an exception with message `e` after
yielding `entries` (caught by the outer handler, line 116), `crash = none`
means it completes normally.

Output: the returned list and the log entries written.  The outer handler
logs the crash at error level (line 117) and control falls through to the
final return, which substitutes the one-element sentinel list for an empty
`threats` list (line 119). -/
def security_scan (entries : List ProcAccess) (crash : Option String) :
    List String × List LogEntry :=
  let threats := scanFindings entries
  let log : List LogEntry :=
    match crash with
    | none => []
    | some e => [⟨LogLevel.error, "Scan failed: " ++ e⟩]
  (if threats.isEmpty then [noThreatsMsg] else threats, log)

/-- The logging decision of one iteration of `SecureAICore.run`
(src/main.py lines 128-130): the scan result is logged as a warning only
when its length exceeds 1. -/
def runIterationLog (threats : List String) : List LogEntry :=
  if threats.length > 1 then
    [⟨LogLevel.warning, "Security Alert:\n" ++ String.intercalate "\n" threats⟩]
  else []

/-- Result of `SecureAICore.ai_analyze`: either the classification backend's
output (a sequence of label/score pairs, what `analyzer(text)` returns) or
the error dictionary the source builds
(src/main.py lines 96 and 103). -/
inductive AnalyzeResult where
  | classified (out : List (String × ℚ))
  | errorResult (message : String)
  deriving Repr, DecidableEq

/-- `SecureAICore.ai_analyze` (src/main.py lines 93-103).

`aiReady` is the module-level `AI_READY` flag; `backend` models constructing
the `pipeline` and applying it to the text, returning either its output or
the message of the exception it raises (both the construction and the call
sit inside the same handler, lines 98-103). -/
def ai_analyze (aiReady : Bool)
    (backend : String → Except String (List (String × ℚ)))
    (text : String) : AnalyzeResult :=
  if !aiReady then AnalyzeResult.errorResult "AI engine not available"
  else
    match backend text with
    | Except.ok out => AnalyzeResult.classified out
    | Except.error e => AnalyzeResult.errorResult e

/-- The mutable fields of `SecureAICore` (src/main.py lines 50-52):
the stop flag and the relay process handle (`None` until a successful
launch). -/
structure CoreState where
  running : Bool
  tor_process : Option Unit
  deriving Repr, DecidableEq

/-- Outcome of `stem.process.launch_tor_with_config` (src/main.py lines
78-86): a process handle, or an exception (launch failure or the 300-second
timeout) whose message is recorded. -/
inductive LaunchResult where
  | ok
  | failure (cause : String)
  deriving Repr, DecidableEq

/-- `SecureAICore.start_tor` (src/main.py lines 70-91).

`torReady` is the module-level `TOR_READY` flag; `launch` is the outcome of
the relay launch call.  Returns the boolean result of the method, the state
after the call (the assignment on line 78 only happens when the launch call
returns, so a raised exception leaves `tor_process` unchanged), and the log
entries written. -/
def start_tor (torReady : Bool) (launch : LaunchResult) (st : CoreState) :
    Bool × CoreState × List LogEntry :=
  if !torReady then
    (false, st, [⟨LogLevel.warning, "TOR not available - running in unprotected mode"⟩])
  else
    match launch with
    | LaunchResult.ok =>
        (true, { st with tor_process := some () },
          [⟨LogLevel.info, "TOR started successfully"⟩])
    | LaunchResult.failure cause =>
        (false, st, [⟨LogLevel.error, "TOR failed: " ++ cause⟩])

/-- Result of claiming the single-instance resource. -/
inductive GuardResult where
  | acquired
  | alreadyRunning
  deriving Repr, DecidableEq

/-- The single-instance claim in `__main__` (src/main.py lines 241-243):
binding a TCP socket to the fixed endpoint 127.0.0.1:65432.  The
exclusivity of the OS bind is the boundary behaviour of the collaborator
(spec section 6): the bind raises `socket.error` exactly when another
instance already holds the endpoint. -/
def acquire (otherInstanceHolds : Bool) : GuardResult :=
  if otherInstanceHolds then GuardResult.alreadyRunning else GuardResult.acquired

/-- Observable outcome of the launcher: the process exit code and whether a
`SecureAICore` was constructed (i.e. any subsystem was started). -/
structure LaunchOutcome where
  exitCode : Nat
  coreStarted : Bool
  deriving Repr, DecidableEq

/-- The `__main__` launcher (src/main.py lines 239-257): when the bind
raises, the script prints to stderr and calls `sys.exit(1)` before any
`SecureAICore` is constructed; otherwise it proceeds into the CLI (or GUI)
path, which constructs the core, runs it, and terminates normally —
exit code 0 — on graceful shutdown. -/
def launcher (otherInstanceHolds : Bool) : LaunchOutcome :=
  match acquire otherInstanceHolds with
  | GuardResult.alreadyRunning => ⟨1, false⟩
  | GuardResult.acquired => ⟨0, true⟩

/-- Whole-agent state for the anonymity invariant: the `SecureAICore`
fields plus the environment fact of whether the relay OS process is
currently alive (the source never stores or queries this). -/
structure AgentWorld where
  core : CoreState
  torAlive : Bool
  deriving Repr, DecidableEq

/-- State at process start: `running = True`, `tor_process = None`
(src/main.py lines 51-52), no relay process exists. -/
def initWorld : AgentWorld := ⟨⟨true, none⟩, false⟩

/-- The supervisor operations that touch `running`, `tor_process`, or the
relay process, plus the one relevant environment event:

* `startTorOk` — `start_tor` succeeds: the handle is stored (line 78) and
  the freshly launched relay process is alive;
* `startTorFail` — `start_tor` returns `False` (TOR unavailable, launch
  failure, or timeout): no field changes (lines 72-75, 89-91);
* `cleanExit` — `SecureAIGUI.clean_exit` (lines 210-212) or the
  `KeyboardInterrupt` handler in `run` (lines 132-133): sets `running`
  to `False` and nothing else — in particular the relay handle is neither
  terminated nor cleared;
* `relayDies` — the environment: the relay OS process terminates; the
  source has no code observing or reacting to this. -/
inductive AgentStep : AgentWorld → AgentWorld → Prop where
  | startTorOk (w : AgentWorld) : AgentStep w ⟨⟨w.core.running, some ()⟩, true⟩
  | startTorFail (w : AgentWorld) : AgentStep w w
  | cleanExit (w : AgentWorld) : AgentStep w ⟨⟨false, w.core.tor_process⟩, w.torAlive⟩
  | relayDies (w : AgentWorld) : AgentStep w ⟨w.core, false⟩

/-- States reachable from process start through supervisor operations and
relay death. -/
def Reachable (w : AgentWorld) : Prop :=
  Relation.ReflTransGen AgentStep initWorld w

/-- The TOR line of `SecureAIGUI.show_status` (src/main.py line 196):
`Active` exactly when `self.core.tor_process` is truthy, aliveness never
consulted. -/
def torStatusLine (w : AgentWorld) : String :=
  "TOR: " ++ (if w.core.tor_process.isSome then "Active" else "Inactive")

/-- A state in which the relay was launched successfully and its process
has since died: the handle is still held, the process is not alive. -/
def deadRelayWorld : AgentWorld := ⟨⟨true, some ()⟩, false⟩

/-- The state right after a successful relay launch. -/
def launchedWorld : AgentWorld := ⟨⟨true, some ()⟩, true⟩

/-! ## Helper lemmas -/

theorem scanFindings_append (xs ys : List ProcAccess) :
    scanFindings (xs ++ ys) = scanFindings xs ++ scanFindings ys :=
  List.filterMap_append xs ys _

theorem scanFindings_map_ok (ps : List ProcessSnapshot) :
    scanFindings (ps.map ProcAccess.ok) =
      (ps.filter fun p => p.cpu_percent > 90).map threatMsg := by
  induction ps with
  | nil => rfl
  | cons p ps ih =>
      by_cases hp : p.cpu_percent > 90 <;>
        simp [scanFindings, List.filterMap_cons, hp, List.filter_cons] <;>
        simpa [scanFindings] using ih

theorem torStatusLine_active_iff (w : AgentWorld) :
    torStatusLine w = "TOR: Active" ↔ w.core.tor_process.isSome = true := by
  unfold torStatusLine
  cases hw : w.core.tor_process.isSome <;> simp [hw]

/-! ## Claims -/

/-- C1: for every process list, `security_scan` returns a finding for
exactly those entries whose `cpu_percent` exceeds 90, in the original
enumeration order, and returns the one-element sentinel list when the list
is empty or every entry is at or below the threshold. -/
theorem security_scan_flags_exactly_high_cpu (ps : List ProcessSnapshot) :
    (security_scan (ps.map ProcAccess.ok) none).1 =
      if (ps.filter fun p => p.cpu_percent > 90) = [] then [noThreatsMsg]
      else (ps.filter fun p => p.cpu_percent > 90).map threatMsg := by
  unfold security_scan
  rw [scanFindings_map_ok]
  cases h : ps.filter fun p => p.cpu_percent > 90 with
  | nil => simp [h]
  | cons a l => simp [h]

/-- C2 (counterexample): when enumeration raises before yielding any entry,
`security_scan` does not return an empty sequence — it returns the
one-element sentinel list. -/
theorem security_scan_crash_returns_sentinel :
    (security_scan [] (some "host process API unavailable")).1 = [noThreatsMsg] ∧
    (security_scan [] (some "host process API unavailable")).1.length = 1 ∧
    (security_scan [] (some "host process API unavailable")).2 =
      [⟨LogLevel.error, "Scan failed: host process API unavailable"⟩] := by
  refine ⟨rfl, rfl, rfl⟩

/-- C2 (amended): when enumeration fails catastrophically, `security_scan`
catches the exception, logs the cause at error level, never raises past its
boundary, and returns the findings accumulated before the failure — the
one-element sentinel list when there are none — never an empty list. -/
theorem security_scan_crash_caught (entries : List ProcAccess) (e : String) :
    (security_scan entries (some e)).2 =
      [⟨LogLevel.error, "Scan failed: " ++ e⟩] ∧
    (security_scan entries (some e)).1 =
      (if scanFindings entries = [] then [noThreatsMsg]
       else scanFindings entries) ∧
    1 ≤ (security_scan entries (some e)).1.length := by
  refine ⟨rfl, ?_, ?_⟩ <;>
    · unfold security_scan
      cases h : scanFindings entries <;> simp [h]

/-- C3 (code evaluation): a scan with exactly one genuine finding produces a
length-1 list, and the `run` loop's `len(threats) > 1` test then logs no
warning — although the findings are non-empty. -/
theorem run_skips_single_finding_warning :
    (security_scan [ProcAccess.ok ⟨1234, "chrome", 95⟩] none).1 =
      ["High CPU: chrome (PID: 1234)"] ∧
    runIterationLog (security_scan [ProcAccess.ok ⟨1234, "chrome", 95⟩] none).1 =
      [] := by
  refine ⟨by decide, by decide⟩

/-- C4: when `AI_READY` is false, `ai_analyze` returns the unavailability
error immediately and its result does not depend on the backend (the
backend is never invoked); when `AI_READY` is true and the backend raises,
the failure is converted into an error result carrying the cause, never
propagated. -/
theorem ai_analyze_gateway (b b2 : String → Except String (List (String × ℚ)))
    (text e : String) (h : b text = Except.error e) :
    ai_analyze false b text = AnalyzeResult.errorResult "AI engine not available" ∧
    ai_analyze false b text = ai_analyze false b2 text ∧
    ai_analyze true b text = AnalyzeResult.errorResult e := by
  refine ⟨rfl, rfl, ?_⟩
  simp [ai_analyze, h]

/-- A backend that always raises, for exercising the gateway. -/
def failingBackend : String → Except String (List (String × ℚ)) :=
  fun _ => Except.error "model load failed"

/-- A backend that always returns an empty classification. -/
def emptyBackend : String → Except String (List (String × ℚ)) :=
  fun _ => Except.ok []

/-- C4 witness at a concrete text and backends. -/
theorem ai_analyze_gateway_witness :
    failingBackend "x" = Except.error "model load failed" ∧
    (ai_analyze false failingBackend "x" =
        AnalyzeResult.errorResult "AI engine not available" ∧
      ai_analyze false failingBackend "x" = ai_analyze false emptyBackend "x" ∧
      ai_analyze true failingBackend "x" =
        AnalyzeResult.errorResult "model load failed") :=
  ⟨rfl, ai_analyze_gateway failingBackend emptyBackend "x" "model load failed" rfl⟩

/-- C5: when TOR is unavailable or the launch raises (timeout or failure),
`start_tor` returns `False` rather than raising, leaves the state — in
particular a `None` relay handle — unchanged, leaves the `running` flag
untouched (the agent keeps running unprotected), and logs the cause. -/
theorem start_tor_failure_unprotected (st : CoreState) (launch : LaunchResult)
    (cause : String) (h : st.tor_process = none) :
    ((start_tor false launch st).1 = false ∧
      (start_tor false launch st).2.1 = st ∧
      (start_tor false launch st).2.1.tor_process = none ∧
      (start_tor false launch st).2.2 =
        [⟨LogLevel.warning, "TOR not available - running in unprotected mode"⟩]) ∧
    ((start_tor true (LaunchResult.failure cause) st).1 = false ∧
      (start_tor true (LaunchResult.failure cause) st).2.1 = st ∧
      (start_tor true (LaunchResult.failure cause) st).2.1.tor_process = none ∧
      (start_tor true (LaunchResult.failure cause) st).2.2 =
        [⟨LogLevel.error, "TOR failed: " ++ cause⟩]) :=
  ⟨⟨rfl, rfl, h, rfl⟩, ⟨rfl, rfl, h, rfl⟩⟩

/-- C5 witness: the fresh core state and a concrete timeout cause. -/
theorem start_tor_failure_unprotected_witness :
    (⟨true, none⟩ : CoreState).tor_process = none ∧
    (((start_tor false LaunchResult.ok ⟨true, none⟩).1 = false ∧
       (start_tor false LaunchResult.ok ⟨true, none⟩).2.1 = ⟨true, none⟩ ∧
       (start_tor false LaunchResult.ok ⟨true, none⟩).2.1.tor_process = none ∧
       (start_tor false LaunchResult.ok ⟨true, none⟩).2.2 =
         [⟨LogLevel.warning, "TOR not available - running in unprotected mode"⟩]) ∧
     ((start_tor true (LaunchResult.failure "timeout after 300 seconds") ⟨true, none⟩).1 = false ∧
       (start_tor true (LaunchResult.failure "timeout after 300 seconds") ⟨true, none⟩).2.1 =
         ⟨true, none⟩ ∧
       (start_tor true (LaunchResult.failure "timeout after 300 seconds") ⟨true, none⟩).2.1.tor_process =
         none ∧
       (start_tor true (LaunchResult.failure "timeout after 300 seconds") ⟨true, none⟩).2.2 =
         [⟨LogLevel.error, "TOR failed: timeout after 300 seconds"⟩])) :=
  ⟨rfl, start_tor_failure_unprotected ⟨true, none⟩ LaunchResult.ok
    "timeout after 300 seconds" rfl⟩

/-- C7: when another instance holds the endpoint, acquisition reports
already-running and the launcher exits with code 1 without constructing the
core; when the endpoint is free, acquisition succeeds and a graceful run
exits with code 0. -/
theorem instance_guard_behaviour :
    acquire true = GuardResult.alreadyRunning ∧
    launcher true = ⟨1, false⟩ ∧
    acquire false = GuardResult.acquired ∧
    launcher false = ⟨0, true⟩ :=
  ⟨rfl, rfl, rfl, rfl⟩

/-- C8: an entry whose inspection raises access-denied or no-such-process
is silently skipped: the scan result (findings and log) is exactly that of
the list without the entry, so the remaining entries are still processed
and the failure neither aborts nor pollutes the scan. -/
theorem security_scan_skips_inaccessible (pre post : List ProcAccess) :
    security_scan (pre ++ ProcAccess.accessDenied :: post) none =
      security_scan (pre ++ post) none ∧
    security_scan (pre ++ ProcAccess.noSuchProcess :: post) none =
      security_scan (pre ++ post) none := by
  have hd : scanFindings (ProcAccess.accessDenied :: post) = scanFindings post := rfl
  have hn : scanFindings (ProcAccess.noSuchProcess :: post) = scanFindings post := rfl
  constructor <;>
    · unfold security_scan
      rw [scanFindings_append, scanFindings_append]
      simp [hd, hn]

/-- C9 (counterexample): the state reached by a successful relay launch
followed by the relay process dying is reachable, and there the status
surface still reports TOR active while the process is not alive — the
claimed invariant (active iff handle held and process alive) fails. -/
theorem anonymity_invariant_fails :
    Reachable deadRelayWorld ∧
    torStatusLine deadRelayWorld = "TOR: Active" ∧
    deadRelayWorld.core.tor_process.isSome = true ∧
    deadRelayWorld.torAlive = false :=
  ⟨Relation.ReflTransGen.tail
      (Relation.ReflTransGen.single (AgentStep.startTorOk initWorld))
      (AgentStep.relayDies launchedWorld),
    by decide, rfl, rfl⟩

/-- C9 (amended): across every supervisor operation and environment step,
the status surface reports TOR active exactly when the `tor_process`
handle is held — aliveness is never consulted — and no step ever releases
a held handle. -/
theorem status_tracks_handle_not_aliveness (w w2 : AgentWorld)
    (h : AgentStep w w2) :
    (torStatusLine w2 = "TOR: Active" ↔ w2.core.tor_process.isSome = true) ∧
    (w.core.tor_process.isSome = true → w2.core.tor_process.isSome = true) := by
  refine ⟨torStatusLine_active_iff w2, fun hh => ?_⟩
  cases h
  case startTorOk => rfl
  case startTorFail => exact hh
  case cleanExit => exact hh
  case relayDies => exact hh

/-- C9 amended witness at the successful-launch step. -/
theorem status_tracks_handle_not_aliveness_witness :
    AgentStep initWorld launchedWorld ∧
    ((torStatusLine launchedWorld = "TOR: Active" ↔
        launchedWorld.core.tor_process.isSome = true) ∧
      (initWorld.core.tor_process.isSome = true →
        launchedWorld.core.tor_process.isSome = true)) :=
  ⟨AgentStep.startTorOk initWorld,
    status_tracks_handle_not_aliveness initWorld launchedWorld
      (AgentStep.startTorOk initWorld)⟩

/-- C10: for every enumeration outcome — including the empty list and a
raised enumeration — `security_scan` returns a list of length at least one,
substituting the fixed one-element sentinel list exactly when no process
was flagged, so callers never observe an empty result. -/
theorem security_scan_never_empty (entries : List ProcAccess)
    (crash : Option String) :
    1 ≤ (security_scan entries crash).1.length ∧
    (security_scan entries crash).1 =
      (if scanFindings entries = [] then [noThreatsMsg]
       else scanFindings entries) := by
  constructor <;>
    · unfold security_scan
      cases h : scanFindings entries <;> simp [h]

end SecureAI
